import Mathlib

/-!
Shallow embedding of `src/App/SafeMode.cpp` (FreeCAD safe-mode bootstrap guard).

The C++ file manipulates four pieces of mutable state:
* the application configuration mapping (`App::GetApplication().Config()`,
  a `std::map<std::string, std::string>`),
* one well-known marker file `<system_temp>/FREECAD_BOOT_NOT_COMPLETE`
  (its existence, last-modified time in seconds, and text content),
* directories on disk,
* the static pointer `tempDir` (a `QTemporaryDir *`, null when safe mode
  is not engaged).

We model all of this in a `World` record.  External nondeterminism is
passed in explicitly: the wall clock is the `now` field, success of the
two marker-file `open` calls is recorded in `markerReadOk` /
`markerWriteOk`, the result of `new QTemporaryDir()` is an
`Option String` argument (`none` = the directory is not valid), success
of `QDir().mkpath` is a `String → Bool` argument, and success of
`QFile::remove` is a `Bool` argument.  The platform path separator
`PATHSEP` is a `String` argument `sep`.
-/

/-- Configuration mapping: association list mirroring
`std::map<std::string, std::string>` (first binding wins on lookup;
there is never more than one binding per key in reachable states). -/
abbrev Cfg := List (String × String)

/-- Lookup in the configuration mapping (`map::find`). -/
def cfgLookup : Cfg → String → Option String
  | [], _ => none
  | (k0, v0) :: rest, k => if k0 = k then some v0 else cfgLookup rest k

/-- `map::count` (0 or 1 for `std::map`), as a Bool. -/
def cfgCount (m : Cfg) (k : String) : Bool :=
  (cfgLookup m k).isSome

/-- `std::map::operator[]` used as an rvalue: returns the stored value,
default-inserting an empty string when the key is absent.  The possibly
enlarged map is returned alongside the value. -/
def cfgIndexGet (m : Cfg) (k : String) : String × Cfg :=
  match cfgLookup m k with
  | some v => (v, m)
  | none => ("", m ++ [(k, "")])

/-- `std::map::operator[]` used as an lvalue (`config[d] = path`):
insert-or-assign. -/
def cfgSet : Cfg → String → String → Cfg
  | [], k, v => [(k, v)]
  | (k0, v0) :: rest, k, v =>
      if k0 = k then (k, v) :: rest else (k0, v0) :: cfgSet rest k v

/-- The mutable state visible to `SafeMode.cpp`. -/
structure World where
  /-- the application configuration mapping -/
  config : Cfg
  /-- does `<system_temp>/FREECAD_BOOT_NOT_COMPLETE` exist? -/
  markerExists : Bool
  /-- its last-modified time, in seconds -/
  markerMTime : Int
  /-- its text content -/
  markerContent : String
  /-- would opening the marker for reading succeed? -/
  markerReadOk : Bool
  /-- would opening the marker for writing succeed? -/
  markerWriteOk : Bool
  /-- current wall-clock time, in seconds (`QDateTime::currentDateTime`) -/
  now : Int
  /-- the static `QTemporaryDir * tempDir`: `none` = null pointer,
  `some base` = points at a valid temporary directory rooted at `base` -/
  tempDir : Option String
  /-- directories that exist on disk -/
  dirs : List String
  /-- warning diagnostics emitted so far (`qWarning`), oldest first -/
  warnings : List String
deriving Repr, DecidableEq

/-- `_bootFileContent`: build-identity string.  Starts from
`config["BuildRevision"]` (a default-inserting access), then appends
`" " + config["BuildRevisionBranch"]` and `" " + config["BuildRevisionHash"]`
when those keys are present.  Returns the string together with the
(possibly mutated) configuration mapping. -/
def bootFileContent (config : Cfg) : String × Cfg :=
  let p0 := cfgIndexGet config "BuildRevision"
  let p1 :=
    if cfgCount p0.2 "BuildRevisionBranch" then
      let q := cfgIndexGet p0.2 "BuildRevisionBranch"
      (p0.1 ++ " " ++ q.1, q.2)
    else
      (p0.1, p0.2)
  let p2 :=
    if cfgCount p1.2 "BuildRevisionHash" then
      let q := cfgIndexGet p1.2 "BuildRevisionHash"
      (p1.1 ++ " " ++ q.1, q.2)
    else
      (p1.1, p1.2)
  p2

/-- `_didBootFailRecently`: marker interpretation.  Checks, in order:
existence, freshness (`lastModified.secsTo(now) > 12 * 3600` rejects),
openability for reading, and byte-equality of the content with the
build identity computed now.  Returns the verdict together with the
world (whose configuration `_bootFileContent` may have mutated). -/
def didBootFailRecently (w : World) : Bool × World :=
  if w.markerExists = false then
    (false, w)
  else if w.now - w.markerMTime > 12 * 3600 then
    (false, w)
  else if w.markerReadOk = false then
    (false, w)
  else
    let p := bootFileContent w.config
    let w1 := { w with config := p.2 }
    if w.markerContent ≠ p.1 then (false, w1) else (true, w1)

/-- `_createBootFile`: open the marker for writing (truncating); on
failure return silently, otherwise write the build identity.  The
marker's last-modified time becomes the current time. -/
def createBootFile (w : World) : World :=
  if w.markerWriteOk = false then
    w
  else
    let p := bootFileContent w.config
    { w with
        config := p.2
        markerExists := true
        markerContent := p.1
        markerMTime := w.now }

/-- `_createTemporaryBaseDir`: `tempDir = new QTemporaryDir()`; when the
new directory is invalid the object is deleted and `tempDir` reset to
null.  `avail` is the environment's answer: `some base` when the OS
yields a fresh directory `base`, `none` on failure.  The function's C++
return value is the truthiness of `tempDir`, i.e. `.tempDir.isSome` of
the result. -/
def createTemporaryBaseDir (avail : Option String) (w : World) : World :=
  match avail with
  | none => { w with tempDir := none }
  | some base => { w with tempDir := some base, dirs := base :: w.dirs }

/-- The fixed, ordered list of profile keys rebound by `_replaceDirs`. -/
def profileKeys : List String :=
  ["UserAppData", "UserConfigPath", "UserCachePath",
   "AppTempPath", "UserMacroPath", "UserHomePath"]

/-- Loop body of `_replaceDirs` over a list of keys: for each key `d`,
compute `base ++ sep ++ d ++ sep`, attempt `QDir().mkpath` (success
given by `mk`), and unconditionally store the path under `d` in the
configuration mapping. -/
def replaceDirsAux (sep : String) (mk : String → Bool) (base : String) :
    List String → World → World
  | [], w => w
  | d :: rest, w =>
      let path := base ++ sep ++ d ++ sep
      let w1 := if mk path then { w with dirs := path :: w.dirs } else w
      replaceDirsAux sep mk base rest { w1 with config := cfgSet w1.config d path }

/-- `_replaceDirs`: rebind all six profile keys under the scratch root
`base` (the `tempDir->path()` of the live temporary directory). -/
def replaceDirs (sep : String) (mk : String → Bool) (w : World) (base : String) : World :=
  replaceDirsAux sep mk base profileKeys w

/-- The warning emitted on automatic safe-mode entry. -/
def warnFailedBoot : String := "Failed boot detected, entering safe mode!"

/-- `SafeMode::InitializeSafeMode`: evaluate `_didBootFailRecently` on the
pre-state, then unconditionally `_createBootFile`; if a previous failure
was detected or safe mode is forced, provision a scratch root, and on
success warn (only in the detected case) and rebind the profile keys. -/
def InitializeSafeMode (sep : String) (mk : String → Bool) (avail : Option String)
    (force : Bool) (w : World) : World :=
  let p := didBootFailRecently w
  let w1 := createBootFile p.2
  if p.1 || force then
    let w2 := createTemporaryBaseDir avail w1
    match w2.tempDir with
    | some base =>
        let w3 :=
          if p.1 then { w2 with warnings := w2.warnings ++ [warnFailedBoot] } else w2
        replaceDirs sep mk w3 base
    | none => w2
  else
    w1

/-- `SafeMode::BootUpComplete`: best-effort `QFile::remove` of the marker;
`removeOk` is the environment's answer to whether removal succeeds. -/
def BootUpComplete (removeOk : Bool) (w : World) : World :=
  if removeOk then { w with markerExists := false } else w

/-- `SafeMode::SafeModeEnabled`: `return tempDir;` — truthiness of the
static pointer. -/
def SafeModeEnabled (w : World) : Bool :=
  w.tempDir.isSome

/-- One call to a public operation other than `Destruct`, with its
environment inputs. -/
inductive Op where
  /-- `InitializeSafeMode(force)` with separator, mkpath oracle and
  provisioner result -/
  | initMode (sep : String) (mk : String → Bool) (avail : Option String) (force : Bool)
  /-- `BootUpComplete()` with removal success -/
  | bootDone (removeOk : Bool)
  /-- `SafeModeEnabled()` (pure) -/
  | queryEnabled

/-- Does this operation invoke `InitializeSafeMode`? -/
def Op.isInitCall : Op → Bool
  | .initMode _ _ _ _ => true
  | _ => false

/-- Execute one public operation. -/
def runOp : Op → World → World
  | .initMode sep mk avail force, w => InitializeSafeMode sep mk avail force w
  | .bootDone removeOk, w => BootUpComplete removeOk w
  | .queryEnabled, w => w

/-- Execute a sequence of public operations, oldest first. -/
def runOps : List Op → World → World
  | [], w => w
  | op :: rest, w => runOps rest (runOp op w)

/-!
Heap model for `SafeMode::Destruct`.  The source is

    static QTemporaryDir * tempDir = nullptr;   // line 34
    void SafeMode::Destruct() { delete tempDir; }

`delete` frees the pointee but leaves the pointer variable unchanged, so
it must be modelled against a heap of live allocations: deleting a null
pointer is a no-op, deleting a live allocation frees it, and deleting an
already-freed pointer is undefined behavior (`none`).
-/

/-- Heap state for the static `tempDir` pointer: the pointer value
(`none` = null) and the addresses of live heap allocations. -/
structure TempDirHeap where
  /-- the static pointer `tempDir` -/
  tempDir : Option Nat
  /-- addresses of live `QTemporaryDir` objects -/
  allocated : List Nat
deriving Repr, DecidableEq

/-- C++ `delete p` on a heap: no-op for null, frees a live allocation,
undefined behavior (`none`) for a dangling pointer. -/
def heapDelete (h : List Nat) (p : Option Nat) : Option (List Nat) :=
  match p with
  | none => some h
  | some a => if a ∈ h then some (h.erase a) else none

/-- `SafeMode::Destruct`: `delete tempDir;` — the pointer field is left
unchanged (the source does not null it). -/
def Destruct (s : TempDirHeap) : Option TempDirHeap :=
  (heapDelete s.allocated s.tempDir).map (fun h => { s with allocated := h })

/-- A sample pre-launch world: empty configuration, no marker, clock at
0, marker file operations available, no scratch root. -/
def w0 : World :=
  { config := []
    markerExists := false
    markerMTime := 0
    markerContent := ""
    markerReadOk := true
    markerWriteOk := true
    now := 0
    tempDir := none
    dirs := []
    warnings := [] }

/-! ### Helper lemmas about the configuration mapping -/

theorem cfgLookup_append_same (m : Cfg) (k v : String) (h : cfgLookup m k = none) :
    cfgLookup (m ++ [(k, v)]) k = some v := by
  induction m with
  | nil => simp [cfgLookup]
  | cons kv rest ih =>
      obtain ⟨k0, v0⟩ := kv
      by_cases hk : k0 = k
      · simp [cfgLookup, hk] at h
      · simp [cfgLookup, hk] at h ⊢
        exact ih h

theorem cfgLookup_append_other (m : Cfg) (k v k' : String) (h : k' ≠ k) :
    cfgLookup (m ++ [(k, v)]) k' = cfgLookup m k' := by
  induction m with
  | nil => simp [cfgLookup, Ne.symm h]
  | cons kv rest ih =>
      obtain ⟨k0, v0⟩ := kv
      by_cases hk : k0 = k'
      · simp [cfgLookup, hk]
      · simp [cfgLookup, hk]
        exact ih

theorem cfgSet_lookup (m : Cfg) (k v k' : String) :
    cfgLookup (cfgSet m k v) k' = if k = k' then some v else cfgLookup m k' := by
  induction m with
  | nil =>
      by_cases h : k = k' <;> simp [cfgSet, cfgLookup, h]
  | cons kv rest ih =>
      obtain ⟨k0, v0⟩ := kv
      by_cases h0 : k0 = k
      · subst h0
        by_cases h : k0 = k' <;> simp [cfgSet, cfgLookup, h]
      · by_cases h : k0 = k'
        · subst h
          have : ¬ k = k0 := fun hh => h0 hh.symm
          simp [cfgSet, h0, cfgLookup, this]
        · simp only [cfgSet, h0, if_false, cfgLookup, h]
          exact ih

theorem cfgIndexGet_of_some (m : Cfg) (k v : String) (h : cfgLookup m k = some v) :
    cfgIndexGet m k = (v, m) := by
  simp [cfgIndexGet, h]

theorem cfgIndexGet_of_none (m : Cfg) (k : String) (h : cfgLookup m k = none) :
    cfgIndexGet m k = ("", m ++ [(k, "")]) := by
  simp [cfgIndexGet, h]

/-! ### Helper lemmas about `bootFileContent` -/

theorem bfc_snd_present (c : Cfg) (r : String)
    (hr : cfgLookup c "BuildRevision" = some r) :
    (bootFileContent c).2 = c := by
  cases hb : cfgLookup c "BuildRevisionBranch" <;>
    cases hh : cfgLookup c "BuildRevisionHash" <;>
      simp [bootFileContent, cfgIndexGet, cfgCount, hr, hb, hh]

theorem bfc_snd_absent (c : Cfg)
    (hr : cfgLookup c "BuildRevision" = none) :
    (bootFileContent c).2 = c ++ [("BuildRevision", "")] := by
  have hb' : cfgLookup (c ++ [("BuildRevision", "")]) "BuildRevisionBranch"
      = cfgLookup c "BuildRevisionBranch" :=
    cfgLookup_append_other _ _ _ _ (by decide)
  have hh' : cfgLookup (c ++ [("BuildRevision", "")]) "BuildRevisionHash"
      = cfgLookup c "BuildRevisionHash" :=
    cfgLookup_append_other _ _ _ _ (by decide)
  cases hb : cfgLookup c "BuildRevisionBranch" <;>
    cases hh : cfgLookup c "BuildRevisionHash" <;>
      simp [bootFileContent, cfgIndexGet, cfgCount, hr, hb, hh, hb', hh']

theorem bfc_lookup_other (c : Cfg) (k : String) (hk : k ≠ "BuildRevision") :
    cfgLookup (bootFileContent c).2 k = cfgLookup c k := by
  cases hr : cfgLookup c "BuildRevision" with
  | none =>
      rw [bfc_snd_absent c hr]
      exact cfgLookup_append_other _ _ _ _ hk
  | some r => rw [bfc_snd_present c r hr]

theorem bfc_lookup_rev_absent (c : Cfg) (hr : cfgLookup c "BuildRevision" = none) :
    cfgLookup (bootFileContent c).2 "BuildRevision" = some "" := by
  rw [bfc_snd_absent c hr]
  exact cfgLookup_append_same _ _ _ hr

theorem bfc_stable (c : Cfg) :
    bootFileContent ((bootFileContent c).2) = bootFileContent c := by
  cases hr : cfgLookup c "BuildRevision" with
  | some r => rw [bfc_snd_present c r hr]
  | none =>
      rw [bfc_snd_absent c hr]
      have hr' : cfgLookup (c ++ [("BuildRevision", "")]) "BuildRevision" = some "" :=
        cfgLookup_append_same _ _ _ hr
      simp only [bootFileContent, cfgIndexGet, hr, hr']

/-! ### Frame lemmas for the marker operations -/

theorem didBoot_of_noMarker (w : World) (h : w.markerExists = false) :
    didBootFailRecently w = (false, w) := by
  simp [didBootFailRecently, h]

theorem didBoot_snd_cases (w : World) :
    (didBootFailRecently w).2 = w ∨
      (didBootFailRecently w).2 = { w with config := (bootFileContent w.config).2 } := by
  unfold didBootFailRecently
  split
  · exact Or.inl rfl
  split
  · exact Or.inl rfl
  split
  · exact Or.inl rfl
  · dsimp only
    split
    · exact Or.inr rfl
    · exact Or.inr rfl

theorem didBoot_tempDir (w : World) :
    (didBootFailRecently w).2.tempDir = w.tempDir := by
  rcases didBoot_snd_cases w with h | h <;> rw [h]

theorem didBoot_warnings (w : World) :
    (didBootFailRecently w).2.warnings = w.warnings := by
  rcases didBoot_snd_cases w with h | h <;> rw [h]

theorem didBoot_markerWriteOk (w : World) :
    (didBootFailRecently w).2.markerWriteOk = w.markerWriteOk := by
  rcases didBoot_snd_cases w with h | h <;> rw [h]

theorem didBoot_lookup_other (w : World) (k : String) (hk : k ≠ "BuildRevision") :
    cfgLookup (didBootFailRecently w).2.config k = cfgLookup w.config k := by
  rcases didBoot_snd_cases w with h | h <;> rw [h]
  exact bfc_lookup_other _ _ hk

theorem createBoot_of_writeFail (w : World) (h : w.markerWriteOk = false) :
    createBootFile w = w := by
  simp [createBootFile, h]

theorem createBoot_of_writeOk (w : World) (h : w.markerWriteOk = true) :
    createBootFile w =
      { w with
          config := (bootFileContent w.config).2
          markerExists := true
          markerContent := (bootFileContent w.config).1
          markerMTime := w.now } := by
  simp [createBootFile, h]

theorem createBoot_tempDir (w : World) :
    (createBootFile w).tempDir = w.tempDir := by
  unfold createBootFile
  split <;> rfl

theorem createBoot_warnings (w : World) :
    (createBootFile w).warnings = w.warnings := by
  unfold createBootFile
  split <;> rfl

theorem createBoot_lookup_other (w : World) (k : String) (hk : k ≠ "BuildRevision") :
    cfgLookup (createBootFile w).config k = cfgLookup w.config k := by
  unfold createBootFile
  split
  · rfl
  · exact bfc_lookup_other _ _ hk

theorem ctbd_tempDir (avail : Option String) (w : World) :
    (createTemporaryBaseDir avail w).tempDir = avail := by
  cases avail <;> rfl

theorem ctbd_warnings (avail : Option String) (w : World) :
    (createTemporaryBaseDir avail w).warnings = w.warnings := by
  cases avail <;> rfl

theorem ctbd_config (avail : Option String) (w : World) :
    (createTemporaryBaseDir avail w).config = w.config := by
  cases avail <;> rfl

/-! ### Lemmas about the rebinder loop -/

theorem rda_tempDir (sep : String) (mk : String → Bool) (base : String) :
    ∀ (ks : List String) (w : World),
      (replaceDirsAux sep mk base ks w).tempDir = w.tempDir := by
  intro ks
  induction ks with
  | nil => intro w; rfl
  | cons d rest ih =>
      intro w
      simp only [replaceDirsAux]
      rw [ih]
      split <;> rfl

theorem rda_warnings (sep : String) (mk : String → Bool) (base : String) :
    ∀ (ks : List String) (w : World),
      (replaceDirsAux sep mk base ks w).warnings = w.warnings := by
  intro ks
  induction ks with
  | nil => intro w; rfl
  | cons d rest ih =>
      intro w
      simp only [replaceDirsAux]
      rw [ih]
      split <;> rfl

theorem rda_lookup_notMem (sep : String) (mk : String → Bool) (base : String) :
    ∀ (ks : List String) (w : World) (d : String), d ∉ ks →
      cfgLookup (replaceDirsAux sep mk base ks w).config d = cfgLookup w.config d := by
  intro ks
  induction ks with
  | nil => intro w d _; rfl
  | cons d0 rest ih =>
      intro w d hd
      have hd0 : d0 ≠ d := fun hh => hd (hh ▸ List.mem_cons_self d0 rest)
      have hdr : d ∉ rest := fun hh => hd (List.mem_cons_of_mem d0 hh)
      simp only [replaceDirsAux]
      rw [ih _ _ hdr]
      rw [show (∀ (x : World) (c : Cfg), ({ x with config := c } : World).config = c) from
        fun _ _ => rfl]
      rw [cfgSet_lookup]
      split <;> simp_all
      split <;> rfl

theorem rda_lookup_mem (sep : String) (mk : String → Bool) (base : String) :
    ∀ (ks : List String) (w : World) (d : String), ks.Nodup → d ∈ ks →
      cfgLookup (replaceDirsAux sep mk base ks w).config d
        = some (base ++ sep ++ d ++ sep) := by
  intro ks
  induction ks with
  | nil => intro w d _ hd; exact absurd hd (List.not_mem_nil d)
  | cons d0 rest ih =>
      intro w d hnd hd
      have hnd0 : d0 ∉ rest := (List.nodup_cons.mp hnd).1
      have hndr : rest.Nodup := (List.nodup_cons.mp hnd).2
      rcases List.mem_cons.mp hd with hd0 | hdr
      · subst hd0
        simp only [replaceDirsAux]
        rw [rda_lookup_notMem sep mk base rest _ d hnd0]
        rw [show (∀ (x : World) (c : Cfg), ({ x with config := c } : World).config = c) from
          fun _ _ => rfl]
        rw [cfgSet_lookup]
        simp
      · simp only [replaceDirsAux]
        exact ih _ d hndr hdr

theorem rda_dirs_mono (sep : String) (mk : String → Bool) (base : String) :
    ∀ (ks : List String) (w : World) (x : String), x ∈ w.dirs →
      x ∈ (replaceDirsAux sep mk base ks w).dirs := by
  intro ks
  induction ks with
  | nil => intro w x hx; exact hx
  | cons d0 rest ih =>
      intro w x hx
      simp only [replaceDirsAux]
      apply ih
      rw [show (∀ (y : World) (c : Cfg), ({ y with config := c } : World).dirs = y.dirs) from
        fun _ _ => rfl]
      split
      · exact List.mem_cons_of_mem _ hx
      · exact hx

theorem rda_dirs_mem (sep : String) (mk : String → Bool) (base : String) :
    ∀ (ks : List String) (w : World) (d : String), d ∈ ks →
      mk (base ++ sep ++ d ++ sep) = true →
      (base ++ sep ++ d ++ sep) ∈ (replaceDirsAux sep mk base ks w).dirs := by
  intro ks
  induction ks with
  | nil => intro w d hd _; exact absurd hd (List.not_mem_nil d)
  | cons d0 rest ih =>
      intro w d hd hmk
      rcases List.mem_cons.mp hd with hd0 | hdr
      · subst hd0
        simp only [replaceDirsAux]
        apply rda_dirs_mono
        rw [show (∀ (y : World) (c : Cfg), ({ y with config := c } : World).dirs = y.dirs) from
          fun _ _ => rfl]
        rw [if_pos hmk]
        exact List.mem_cons_self _ _
      · simp only [replaceDirsAux]
        exact ih _ d hdr hmk

/-! ### Shape of `InitializeSafeMode` by cases on its branches -/

theorem init_shape_noEngage (sep : String) (mk : String → Bool) (avail : Option String)
    (force : Bool) (w : World)
    (hc : ((didBootFailRecently w).1 || force) = false) :
    InitializeSafeMode sep mk avail force w = createBootFile (didBootFailRecently w).2 := by
  unfold InitializeSafeMode
  simp [hc]

theorem init_shape_availNone (sep : String) (mk : String → Bool)
    (force : Bool) (w : World)
    (hc : ((didBootFailRecently w).1 || force) = true) :
    InitializeSafeMode sep mk none force w =
      { createBootFile (didBootFailRecently w).2 with tempDir := none } := by
  unfold InitializeSafeMode
  simp [hc, createTemporaryBaseDir]

theorem init_shape_engage (sep : String) (mk : String → Bool) (base : String)
    (force : Bool) (w : World)
    (hc : ((didBootFailRecently w).1 || force) = true) :
    InitializeSafeMode sep mk (some base) force w =
      replaceDirs sep mk
        (if (didBootFailRecently w).1 then
          { createTemporaryBaseDir (some base) (createBootFile (didBootFailRecently w).2) with
              warnings :=
                (createTemporaryBaseDir (some base)
                    (createBootFile (didBootFailRecently w).2)).warnings
                  ++ [warnFailedBoot] }
        else
          createTemporaryBaseDir (some base) (createBootFile (didBootFailRecently w).2))
        base := by
  unfold InitializeSafeMode
  simp [hc, createTemporaryBaseDir]

/-- Boolean characterization of the marker verdict. -/
theorem didBoot_fst_eq (w : World) :
    (didBootFailRecently w).1 =
      (w.markerExists && decide (w.now - w.markerMTime ≤ 12 * 3600) &&
       w.markerReadOk && decide (w.markerContent = (bootFileContent w.config).1)) := by
  unfold didBootFailRecently
  by_cases h1 : w.markerExists = false
  · rw [if_pos h1, h1]
    simp
  · have h1' : w.markerExists = true := by
      cases h : w.markerExists
      · exact absurd h h1
      · rfl
    rw [if_neg h1, h1']
    by_cases h2 : w.now - w.markerMTime > 12 * 3600
    · have h2' : ¬ (w.now - w.markerMTime ≤ 12 * 3600) := by omega
      rw [if_pos h2, decide_eq_false h2']
      simp
    · have h2' : w.now - w.markerMTime ≤ 12 * 3600 := by omega
      rw [if_neg h2, decide_eq_true h2']
      by_cases h3 : w.markerReadOk = false
      · rw [if_pos h3, h3]
        simp
      · have h3' : w.markerReadOk = true := by
          cases h : w.markerReadOk
          · exact absurd h h3
          · rfl
        rw [if_neg h3, h3']
        dsimp only
        by_cases h4 : w.markerContent = (bootFileContent w.config).1
        · rw [if_neg (not_not.mpr h4), decide_eq_true h4]
          simp
        · rw [if_pos h4, decide_eq_false h4]
          simp

/-! ### Claim theorems -/

/-- Claim C1: for every filesystem state and configuration mapping,
`_didBootFailRecently` returns true iff the marker exists, its
last-modified time is no more than 12 hours older than the current
wall-clock time, it can be opened for reading (a filesystem error at
any step yields false), and its body is byte-equal to the build
identity computed now by `_bootFileContent`; moreover the tests
short-circuit: on an earlier miss the later steps (in particular the
configuration-touching `_bootFileContent`) are never reached and the
world is unchanged. -/
theorem markerInterpretation (w : World) :
    ((didBootFailRecently w).1 = true ↔
      (w.markerExists = true ∧ w.now - w.markerMTime ≤ 12 * 3600 ∧
       w.markerReadOk = true ∧ w.markerContent = (bootFileContent w.config).1)) ∧
    (w.markerExists = false → (didBootFailRecently w).2 = w) ∧
    (w.now - w.markerMTime > 12 * 3600 → (didBootFailRecently w).2 = w) ∧
    (w.markerReadOk = false → (didBootFailRecently w).2 = w) := by
  refine ⟨?_, ?_, ?_, ?_⟩
  · rw [didBoot_fst_eq]
    constructor
    · intro h
      refine ⟨?_, ?_, ?_, ?_⟩
      · cases hE : w.markerExists
        · rw [hE] at h; simp at h
        · rfl
      · by_cases hf : w.now - w.markerMTime ≤ 12 * 3600
        · exact hf
        · rw [decide_eq_false hf] at h; simp at h
      · cases hR : w.markerReadOk
        · rw [hR] at h; simp at h
        · rfl
      · by_cases hc : w.markerContent = (bootFileContent w.config).1
        · exact hc
        · rw [decide_eq_false hc] at h; simp at h
    · rintro ⟨hE, hf, hR, hc⟩
      rw [hE, hR, decide_eq_true hf, decide_eq_true hc]
      rfl
  · intro h
    rw [didBoot_of_noMarker w h]
  · intro h
    unfold didBootFailRecently
    by_cases h1 : w.markerExists = false
    · rw [if_pos h1]
    · rw [if_neg h1, if_pos h]
  · intro h
    unfold didBootFailRecently
    by_cases h1 : w.markerExists = false
    · rw [if_pos h1]
    · rw [if_neg h1]
      by_cases h2 : w.now - w.markerMTime > 12 * 3600
      · rw [if_pos h2]
      · rw [if_neg h2, if_pos h]

/-- Witness for C1: the short-circuit clause evaluated at the sample
pre-launch world, which has no marker. -/
theorem markerInterpretation_witness :
    (didBootFailRecently w0).2 = w0 :=
  (markerInterpretation w0).2.1 rfl

/-- Claim C9: under the hypotheses that the marker exists, is readable
and matches the build identity, the freshness test rejects exactly when
the marker's last-modified time is strictly more than 12*3600 seconds
before the current time; a marker exactly 12 hours old passes, and a
marker whose last-modified time lies in the future also passes. -/
theorem freshnessBoundary (w : World) (hE : w.markerExists = true)
    (hR : w.markerReadOk = true)
    (hC : w.markerContent = (bootFileContent w.config).1) :
    ((didBootFailRecently w).1 = false ↔ w.now - w.markerMTime > 12 * 3600) ∧
    (w.now - w.markerMTime = 12 * 3600 → (didBootFailRecently w).1 = true) ∧
    (w.markerMTime > w.now → (didBootFailRecently w).1 = true) := by
  rw [didBoot_fst_eq, hE, hR, decide_eq_true hC]
  refine ⟨?_, ?_, ?_⟩
  · constructor
    · intro h
      by_cases hf : w.now - w.markerMTime ≤ 12 * 3600
      · rw [decide_eq_true hf] at h; simp at h
      · omega
    · intro h
      have hf : ¬ (w.now - w.markerMTime ≤ 12 * 3600) := by omega
      rw [decide_eq_false hf]
      rfl
  · intro h
    have hf : w.now - w.markerMTime ≤ 12 * 3600 := by omega
    rw [decide_eq_true hf]
    rfl
  · intro h
    have hf : w.now - w.markerMTime ≤ 12 * 3600 := by omega
    rw [decide_eq_true hf]
    rfl

/-- A marker world sitting exactly on the 12-hour freshness boundary:
the marker is 12*3600 seconds old and matches the (empty) build
identity of the empty configuration. -/
def wBoundary : World :=
  { w0 with markerExists := true, markerMTime := 0, now := 12 * 3600 }

/-- Witness for C9: a marker exactly 12 hours old is accepted. -/
theorem freshnessBoundary_witness :
    (didBootFailRecently wBoundary).1 = true :=
  (freshnessBoundary wBoundary rfl rfl (by decide)).2.1 (by decide)

/-- Claim C8: the rebinder processes exactly the six profile keys in the
fixed order UserAppData, UserConfigPath, UserCachePath, AppTempPath,
UserMacroPath, UserHomePath, and for every key it stores
`<scratch_root><sep><key><sep>` in the configuration mapping regardless
of whether `mkpath` succeeded; the engaged state (the `tempDir`
pointer) is untouched, so safe mode stays engaged. -/
theorem rebinderUnconditionalWrites (sep : String) (mk : String → Bool) (w : World)
    (base : String) :
    profileKeys = ["UserAppData", "UserConfigPath", "UserCachePath",
                   "AppTempPath", "UserMacroPath", "UserHomePath"] ∧
    (replaceDirs sep mk w base).tempDir = w.tempDir ∧
    ∀ d ∈ profileKeys,
      cfgLookup (replaceDirs sep mk w base).config d = some (base ++ sep ++ d ++ sep) := by
  refine ⟨rfl, rda_tempDir sep mk base profileKeys w, ?_⟩
  intro d hd
  exact rda_lookup_mem sep mk base profileKeys w d (by decide) hd

/-- Witness for C8: the last key is written even when every `mkpath`
call fails. -/
theorem rebinderUnconditionalWrites_witness :
    cfgLookup (replaceDirs "/" (fun _ => false) w0 "T").config "UserHomePath"
      = some ("T" ++ "/" ++ "UserHomePath" ++ "/") :=
  (rebinderUnconditionalWrites "/" (fun _ => false) w0 "T").2.2 "UserHomePath" (by decide)

/-- Claim C4 (refuting the claim as stated, in favor of the spec):
`Destruct` is `delete tempDir;` with the static pointer left dangling,
so from an Active state (non-null pointer, one live scratch object) the
first call frees the object and the second call deletes an
already-freed pointer — undefined behavior — rather than having no
effect.  The spec's stated intent ("Idempotent") is contradicted by the
code, which is missing a `tempDir = nullptr` after the delete. -/
theorem destructDoubleDelete :
    Destruct { tempDir := some 0, allocated := [0] }
        = some { tempDir := some 0, allocated := [] } ∧
    (Destruct { tempDir := some 0, allocated := [0] }).bind Destruct = none ∧
    (Destruct { tempDir := none, allocated := [] }).bind Destruct
        = some { tempDir := none, allocated := [] } := by
  decide

/-- Claim C2: starting from a launch with no marker on disk (and safe
mode not yet engaged), `InitializeSafeMode(false)` evaluates
`_didBootFailRecently` strictly before `_createBootFile`, so the call
reports no failure (safe mode stays off and no warning is emitted) —
even though, whenever the marker write and a subsequent read succeed,
the marker this very call wrote would be detected as a recent failure
by a fresh evaluation on the post-state. -/
theorem initOrderNoSelfTrigger (sep : String) (mk : String → Bool) (avail : Option String)
    (w : World) (hM : w.markerExists = false) (hT : w.tempDir = none) :
    SafeModeEnabled (InitializeSafeMode sep mk avail false w) = false ∧
    (InitializeSafeMode sep mk avail false w).warnings = w.warnings ∧
    (w.markerWriteOk = true → w.markerReadOk = true →
      (didBootFailRecently (InitializeSafeMode sep mk avail false w)).1 = true) := by
  have hd : didBootFailRecently w = (false, w) := didBoot_of_noMarker w hM
  have hshape : InitializeSafeMode sep mk avail false w = createBootFile w := by
    rw [init_shape_noEngage sep mk avail false w (by rw [hd]; rfl)]
    rw [hd]
  refine ⟨?_, ?_, ?_⟩
  · rw [hshape]
    unfold SafeModeEnabled
    rw [createBoot_tempDir, hT]
    rfl
  · rw [hshape, createBoot_warnings]
  · intro hW hR
    rw [hshape, createBoot_of_writeOk w hW]
    rw [didBoot_fst_eq]
    dsimp only
    rw [hR, bfc_stable]
    have hz : w.now - w.now ≤ 12 * 3600 := by omega
    rw [decide_eq_true hz, decide_eq_true (rfl : (bootFileContent w.config).1 = _)]
    rfl

/-- Witness for C2: concrete clean launch (no marker, provisioner
failing, force off): safe mode off, yet the freshly written marker would
be detected by a post-state evaluation. -/
theorem initOrderNoSelfTrigger_witness :
    (didBootFailRecently (InitializeSafeMode "/" (fun _ => true) none false w0)).1 = true :=
  (initOrderNoSelfTrigger "/" (fun _ => true) none w0 rfl rfl).2.2 rfl rfl

/-- Claim C3 is refuted as stated: with a failing `mkpath`, safe mode is
engaged (`SafeModeEnabled` is true) and the profile key `UserAppData`
resolves to `T/UserAppData/`, yet no such directory exists on disk. -/
theorem redirectionDirMissing :
    SafeModeEnabled (InitializeSafeMode "/" (fun _ => false) (some "T") true w0) = true ∧
    cfgLookup (InitializeSafeMode "/" (fun _ => false) (some "T") true w0).config
        "UserAppData" = some "T/UserAppData/" ∧
    "T/UserAppData/" ∉ (InitializeSafeMode "/" (fun _ => false) (some "T") true w0).dirs := by
  decide

/-- Claim C3 (amended): whenever `SafeModeEnabled` returns true after a
call to `InitializeSafeMode` made with safe mode not yet engaged, every
one of the six profile keys resolves via the configuration mapping to
the path `<scratch_root><sep><key><sep>` — a path under the scratch
root ending with the platform path separator — and that path names a
directory that exists on disk provided the `mkpath` call for it
succeeded. -/
theorem redirectionCompleteness (sep : String) (mk : String → Bool) (avail : Option String)
    (force : Bool) (w : World) (hT : w.tempDir = none)
    (hE : SafeModeEnabled (InitializeSafeMode sep mk avail force w) = true) :
    ∀ d ∈ profileKeys,
      ∃ base, (InitializeSafeMode sep mk avail force w).tempDir = some base ∧
        cfgLookup (InitializeSafeMode sep mk avail force w).config d
          = some (base ++ sep ++ d ++ sep) ∧
        (mk (base ++ sep ++ d ++ sep) = true →
          (base ++ sep ++ d ++ sep) ∈ (InitializeSafeMode sep mk avail force w).dirs) := by
  intro d hd
  by_cases hc : ((didBootFailRecently w).1 || force) = true
  · cases avail with
    | none =>
        exfalso
        rw [init_shape_availNone sep mk force w hc] at hE
        simp [SafeModeEnabled] at hE
    | some base =>
        rw [init_shape_engage sep mk base force w hc] at hE ⊢
        refine ⟨base, ?_, ?_, ?_⟩
        · unfold replaceDirs
          rw [rda_tempDir]
          split <;> simp [createTemporaryBaseDir, createBoot_tempDir]
        · exact rda_lookup_mem sep mk base profileKeys _ d (by decide) hd
        · intro hmk
          exact rda_dirs_mem sep mk base profileKeys _ d hd hmk
  · exfalso
    have hc' : ((didBootFailRecently w).1 || force) = false := by
      cases h : ((didBootFailRecently w).1 || force)
      · rfl
      · exact absurd h hc
    rw [init_shape_noEngage sep mk avail force w hc'] at hE
    unfold SafeModeEnabled at hE
    rw [createBoot_tempDir, didBoot_tempDir, hT] at hE
    simp at hE

/-- Witness for C3 (amended): user-forced entry on a clean system with a
succeeding `mkpath`, instantiated at the key `UserCachePath`. -/
theorem redirectionCompleteness_witness :
    ∃ base, (InitializeSafeMode "/" (fun _ => true) (some "T") true w0).tempDir = some base ∧
      cfgLookup (InitializeSafeMode "/" (fun _ => true) (some "T") true w0).config
          "UserCachePath" = some (base ++ "/" ++ "UserCachePath" ++ "/") ∧
      ((fun _ => true) (base ++ "/" ++ "UserCachePath" ++ "/") = true →
        (base ++ "/" ++ "UserCachePath" ++ "/")
          ∈ (InitializeSafeMode "/" (fun _ => true) (some "T") true w0).dirs) :=
  redirectionCompleteness "/" (fun _ => true) (some "T") true w0 rfl (by decide)
    "UserCachePath" (by decide)

/-- Claim C5 is refuted as stated: over sequences of public operations
that may repeat `InitializeSafeMode`, the state is not monotone — after
a first forced initialization engages safe mode, a second
initialization whose provisioner fails resets the `tempDir` pointer to
null, so `SafeModeEnabled` flips from true back to false without any
call to `Destruct`. -/
theorem monotonicityBrokenByReinit :
    SafeModeEnabled (runOps [Op.initMode "/" (fun _ => true) (some "T") true] w0) = true ∧
    SafeModeEnabled (runOps [Op.initMode "/" (fun _ => true) (some "T") true,
                             Op.initMode "/" (fun _ => true) none true] w0) = false := by
  decide

/-- Claim C5 (amended): within a process lifetime, once `SafeModeEnabled`
has returned true, every subsequent call to `SafeModeEnabled` also
returns true across any sequence of the public operations that contains
neither `Destruct` nor a further call to `InitializeSafeMode` (the spec
requires `InitializeSafeMode` to be called exactly once); the controller
never transitions from Active back to Inactive. -/
theorem monotoneWithoutReinit (ops : List Op) (w : World)
    (hw : SafeModeEnabled w = true)
    (hops : ∀ op ∈ ops, op.isInitCall = false) :
    SafeModeEnabled (runOps ops w) = true := by
  induction ops generalizing w with
  | nil => exact hw
  | cons op rest ih =>
      have hop : op.isInitCall = false := hops op (List.mem_cons_self _ _)
      have hrest : ∀ o ∈ rest, o.isInitCall = false :=
        fun o ho => hops o (List.mem_cons_of_mem _ ho)
      refine ih _ ?_ hrest
      cases op with
      | initMode sep mk avail force => simp [Op.isInitCall] at hop
      | bootDone removeOk =>
          show SafeModeEnabled (BootUpComplete removeOk w) = true
          cases removeOk
          · exact hw
          · exact hw
      | queryEnabled => exact hw

/-- Witness for C5 (amended): an Active world stays Active across
`BootUpComplete` and `SafeModeEnabled` calls. -/
theorem monotoneWithoutReinit_witness :
    SafeModeEnabled
      (runOps [Op.bootDone true, Op.queryEnabled, Op.bootDone false]
        { w0 with tempDir := some "T" }) = true :=
  monotoneWithoutReinit [Op.bootDone true, Op.queryEnabled, Op.bootDone false]
    { w0 with tempDir := some "T" } rfl (by decide)

/-- Claim C6: when the scratch-profile provisioner fails (`avail = none`)
and safe mode was not already engaged, `InitializeSafeMode(force)`
returns (it is a total function) with `SafeModeEnabled` false, all six
profile keys unchanged in the configuration mapping, and no diagnostic
emitted — for every value of `force`. -/
theorem provisionFailureFrame (sep : String) (mk : String → Bool) (force : Bool)
    (w : World) (hT : w.tempDir = none) :
    SafeModeEnabled (InitializeSafeMode sep mk none force w) = false ∧
    (∀ d ∈ profileKeys,
      cfgLookup (InitializeSafeMode sep mk none force w).config d
        = cfgLookup w.config d) ∧
    (InitializeSafeMode sep mk none force w).warnings = w.warnings := by
  have hkeys : ∀ d ∈ profileKeys, d ≠ "BuildRevision" := by decide
  by_cases hc : ((didBootFailRecently w).1 || force) = true
  · rw [init_shape_availNone sep mk force w hc]
    refine ⟨rfl, ?_, ?_⟩
    · intro d hd
      show cfgLookup (createBootFile (didBootFailRecently w).2).config d
        = cfgLookup w.config d
      rw [createBoot_lookup_other _ _ (hkeys d hd), didBoot_lookup_other _ _ (hkeys d hd)]
    · show (createBootFile (didBootFailRecently w).2).warnings = w.warnings
      rw [createBoot_warnings, didBoot_warnings]
  · have hc' : ((didBootFailRecently w).1 || force) = false := by
      cases h : ((didBootFailRecently w).1 || force)
      · rfl
      · exact absurd h hc
    rw [init_shape_noEngage sep mk none force w hc']
    refine ⟨?_, ?_, ?_⟩
    · unfold SafeModeEnabled
      rw [createBoot_tempDir, didBoot_tempDir, hT]
      rfl
    · intro d hd
      rw [createBoot_lookup_other _ _ (hkeys d hd), didBoot_lookup_other _ _ (hkeys d hd)]
    · rw [createBoot_warnings, didBoot_warnings]

/-- Witness for C6: provisioner failure under force on the sample
pre-launch world leaves safe mode off. -/
theorem provisionFailureFrame_witness :
    SafeModeEnabled (InitializeSafeMode "/" (fun _ => true) none true w0) = false :=
  (provisionFailureFrame "/" (fun _ => true) true w0 rfl).1

/-- Claim C7: a call to `InitializeSafeMode` appends exactly one warning
("Failed boot detected, entering safe mode!") when and only when a
previous failure was detected on the pre-state and the provisioner
succeeded; in particular no warning is appended on purely forced entry
and none on provisioning failure. -/
theorem warningDiscipline (sep : String) (mk : String → Bool) (avail : Option String)
    (force : Bool) (w : World) :
    (InitializeSafeMode sep mk avail force w).warnings =
      w.warnings ++
        (if (didBootFailRecently w).1 = true ∧ avail.isSome = true
         then [warnFailedBoot] else []) := by
  by_cases hp : (didBootFailRecently w).1 = true
  · cases avail with
    | none =>
        rw [init_shape_availNone sep mk force w (by rw [hp]; rfl)]
        show (createBootFile (didBootFailRecently w).2).warnings = _
        rw [createBoot_warnings, didBoot_warnings]
        simp
    | some base =>
        rw [init_shape_engage sep mk base force w (by rw [hp]; rfl)]
        unfold replaceDirs
        rw [rda_warnings, if_pos hp]
        show (createTemporaryBaseDir (some base)
            (createBootFile (didBootFailRecently w).2)).warnings ++ [warnFailedBoot] = _
        rw [ctbd_warnings, createBoot_warnings, didBoot_warnings]
        simp [hp]
  · have hp' : (didBootFailRecently w).1 = false := by
      cases h : (didBootFailRecently w).1
      · rfl
      · exact absurd h hp
    cases hf : force with
    | true =>
        cases avail with
        | none =>
            rw [init_shape_availNone sep mk true w (by rw [hp']; rfl)]
            show (createBootFile (didBootFailRecently w).2).warnings = _
            rw [createBoot_warnings, didBoot_warnings]
            simp [hp']
        | some base =>
            rw [init_shape_engage sep mk base true w (by rw [hp']; rfl)]
            unfold replaceDirs
            rw [rda_warnings, if_neg (by rw [hp']; exact Bool.false_ne_true)]
            rw [ctbd_warnings, createBoot_warnings, didBoot_warnings]
            simp [hp']
    | false =>
        rw [init_shape_noEngage sep mk avail false w (by rw [hp']; rfl)]
        rw [createBoot_warnings, didBoot_warnings]
        simp [hp']

/-- Claim C10: the build-identity computation accesses `BuildRevision`
with the default-inserting `operator[]`: when the key is absent an
empty-string entry is inserted into the configuration mapping as a side
effect — so even a clean-run `InitializeSafeMode(false)` (which writes
the marker) mutates the mapping beyond the six profile keys — while
absent `BuildRevisionBranch` and `BuildRevisionHash` keys are never
inserted. -/
theorem configSideEffects (c : Cfg) (sep : String) (mk : String → Bool)
    (avail : Option String) (w : World) :
    (cfgLookup c "BuildRevision" = none →
      cfgLookup (bootFileContent c).2 "BuildRevision" = some "") ∧
    (cfgLookup c "BuildRevisionBranch" = none →
      cfgLookup (bootFileContent c).2 "BuildRevisionBranch" = none) ∧
    (cfgLookup c "BuildRevisionHash" = none →
      cfgLookup (bootFileContent c).2 "BuildRevisionHash" = none) ∧
    (w.markerExists = false → w.markerWriteOk = true →
      cfgLookup w.config "BuildRevision" = none →
      cfgLookup (InitializeSafeMode sep mk avail false w).config "BuildRevision"
        = some "") := by
  refine ⟨?_, ?_, ?_, ?_⟩
  · exact bfc_lookup_rev_absent c
  · intro h
    rw [bfc_lookup_other c "BuildRevisionBranch" (by decide)]
    exact h
  · intro h
    rw [bfc_lookup_other c "BuildRevisionHash" (by decide)]
    exact h
  · intro hM hW hr
    have hd : didBootFailRecently w = (false, w) := didBoot_of_noMarker w hM
    rw [init_shape_noEngage sep mk avail false w (by rw [hd]; rfl), hd]
    rw [createBoot_of_writeOk w hW]
    exact bfc_lookup_rev_absent w.config hr

/-- Witness for C10: a clean-run `InitializeSafeMode(false)` on the empty
configuration inserts `BuildRevision` with an empty value. -/
theorem configSideEffects_witness :
    cfgLookup (InitializeSafeMode "/" (fun _ => true) none false w0).config
        "BuildRevision" = some "" :=
  (configSideEffects [] "/" (fun _ => true) none w0).2.2.2 rfl rfl rfl
